import Mathlib

/-!
Verification of the Shiloh church-website admin workflow and content CRUD.

The development shallowly embeds:
* `netlify/functions/delete-user.ts` (the privileged deletion endpoint),
* the client-side reject/remove calls of `src/pages/admin/Admins.tsx`,
* `src/integrations/firebase/admin.ts` (`deleteUserAccount`),
* `src/integrations/firebase/auth.ts` (`signUpWithEmail`, `handleGoogleRedirect`),
* the events / gallery / contact-submission operations of
  `src/integrations/firebase/firestore/church.ts` (client-sorted variant).

Firestore collections keyed by document id are embedded as association lists
`List (String × α)`; unkeyed collections as plain lists.  The identity
provider's user set is a `List String` of uids.  Server timestamps are a
`Nat` field of the state.  The functions of the missing module
`src/integrations/firebase/firestore/users.ts` (only its callers are in the
tree) are modelled from the spec and are marked as such in their doc
comments.
-/

namespace Shiloh

/-- JavaScript `String.prototype.startsWith`: the first `pre.length`
code points of `s` equal `pre`. -/
def jsStartsWith (s pre : String) : Bool :=
  s.toList.take pre.toList.length == pre.toList

/-- JavaScript `String.prototype.substring(n)`: drop the first `n`
code points. -/
def jsSubstringFrom (s : String) (n : Nat) : String :=
  String.mk (s.toList.drop n)

/-- JavaScript truthiness of an optional string field (`undefined`, `null`
and `""` are falsy). -/
def jsTruthy : Option String → Bool
  | none => false
  | some s => s ≠ ""

/-! ## Document model (`users`, `user_roles`, `admin_requests` collections) -/

/-- Role values stored in a `user_roles` document. -/
inductive Role
  | user
  | admin
  | super_admin
deriving DecidableEq, Repr

/-- One `user_roles` document (doc id = user uid). -/
structure RoleDoc where
  role : Role
  assignedBy : String
deriving DecidableEq, Repr

/-- One `users` document (doc id = user uid). -/
structure ProfileDoc where
  email : String
  displayName : String
  photoURL : String
deriving DecidableEq, Repr

/-- Status values of an `admin_requests` document. -/
inductive ReqStatus
  | pending
  | approved
  | rejected
deriving DecidableEq, Repr

/-- One `admin_requests` document (doc id = user uid). -/
structure RequestDoc where
  email : String
  status : ReqStatus
deriving DecidableEq, Repr

/-- A Firestore collection whose document ids are meaningful keys. -/
abbrev Collection (α : Type) := List (String × α)

/-- `setDoc`: write document `v` at id `k`, overwriting any previous
document with that id. -/
def setDoc (k : String) (v : α) (c : Collection α) : Collection α :=
  (k, v) :: c.filter (fun p => p.1 != k)

/-- `getDoc`: read the document at id `k` (`none` when absent). -/
def getDocOpt (k : String) (c : Collection α) : Option α :=
  c.lookup k

/-- `deleteDoc` by document id (a no-op when the document is absent,
matching Firestore). -/
def deleteDocKey (k : String) (c : Collection α) : Collection α :=
  c.filter (fun p => p.1 != k)

/-- The mutable backend state the admin workflow touches: the three
Firestore collections plus the identity provider's user set. -/
structure UserDB where
  users : Collection ProfileDoc
  user_roles : Collection RoleDoc
  admin_requests : Collection RequestDoc
  authUsers : List String
deriving DecidableEq, Repr

/-! ## Modelled functions of the missing `firestore/users.ts` -/

/-- Modelled from the spec: `getUserRole` of the missing
`src/integrations/firebase/firestore/users.ts` — read the `user_roles`
document of `uid` and return its role, `null` when absent. -/
def getUserRole (uid : String) (db : UserDB) : Option Role :=
  (getDocOpt uid db.user_roles).map RoleDoc.role

/-- Modelled from the spec: the promotion guard of the missing
`firestore/users.ts` — does any `user_roles` document with role
`admin` or `super_admin` exist in the system? -/
def hasAnyAdmin (db : UserDB) : Bool :=
  db.user_roles.any (fun p => p.2.role == Role.admin || p.2.role == Role.super_admin)

/-- Modelled from the spec: `createUserProfile` of the missing
`firestore/users.ts` — write the `users` document for `uid`, then
auto-promote: if no `user_roles` document with role `admin` or
`super_admin` exists in the system, assign `uid` the role
`super_admin`, attributed to `"system"`. -/
def createUserProfile (uid : String) (p : ProfileDoc) (db : UserDB) : UserDB :=
  let db1 := { db with users := setDoc uid p db.users }
  if hasAnyAdmin db1 then db1
  else { db1 with user_roles := setDoc uid ⟨Role.super_admin, "system"⟩ db1.user_roles }

/-- Modelled from the spec: `isUserAdmin` of the missing
`firestore/users.ts` — true iff the `user_roles` document of `uid`
has role `admin` or `super_admin`. -/
def isUserAdmin (uid : String) (db : UserDB) : Bool :=
  match getUserRole uid db with
  | some Role.admin => true
  | some Role.super_admin => true
  | _ => false

/-- Modelled from the spec: `createAdminRequest` of the missing
`firestore/users.ts` — write an `admin_requests` document for `uid`
with status `pending`. -/
def createAdminRequest (uid email : String) (db : UserDB) : UserDB :=
  { db with admin_requests := setDoc uid ⟨email, ReqStatus.pending⟩ db.admin_requests }

/-- Modelled from the spec: `getAdminRequestStatus` of the missing
`firestore/users.ts` — the status of the `admin_requests` document of
`uid`, `null` when absent. -/
def getAdminRequestStatus (uid : String) (db : UserDB) : Option ReqStatus :=
  (getDocOpt uid db.admin_requests).map RequestDoc.status

/-! ## `src/integrations/firebase/auth.ts` -/

/-- `signUpWithEmail` (src/integrations/firebase/auth.ts): create the auth
identity, create the profile (which auto-grants `super_admin` if no admin
exists), then, if the new identity is not an admin, create an admin
request. -/
def signUpWithEmail (uid email displayName : String) (db : UserDB) : UserDB :=
  let db0 := { db with authUsers := uid :: db.authUsers }
  let db1 := createUserProfile uid ⟨email, displayName, ""⟩ db0
  if isUserAdmin uid db1 then db1
  else createAdminRequest uid email db1

/-- `handleGoogleRedirect` (src/integrations/firebase/auth.ts): after a
Google redirect sign-in, if `uid` has no role record, create a profile;
then, if the identity is not an admin and no admin request exists yet,
create one. -/
def handleGoogleRedirect (uid email displayName photoURL : String) (db : UserDB) : UserDB :=
  match getUserRole uid db with
  | some _ => db
  | none =>
    let db1 := createUserProfile uid ⟨email, displayName, photoURL⟩ db
    if isUserAdmin uid db1 then db1
    else
      match getAdminRequestStatus uid db1 with
      | some _ => db1
      | none => createAdminRequest uid email db1

/-! ## `netlify/functions/delete-user.ts` -/

/-- An observable backend mutation performed by the deletion endpoint. -/
inductive Action
  | fsDelete (collName : String) (docId : String)
  | authDelete (uid : String)
deriving DecidableEq, Repr

/-- HTTP response of the deletion endpoint (status code plus the message
carried in the JSON body; provider-generated 500 messages are abstracted
to a fixed marker). -/
structure HttpResponse where
  statusCode : Nat
  message : String
deriving DecidableEq, Repr

/-- The parts of the incoming HTTP event the handler inspects:
`event.httpMethod`, `event.headers.authorization`, and the `userId`
field of the parsed JSON body. -/
structure DeleteUserRequest where
  httpMethod : String
  authorization : Option String
  bodyUserId : Option String
deriving DecidableEq, Repr

/-- The identity provider's token-verification capability
(`auth.verifyIdToken`): maps a token to the uid it certifies, `none`
when verification throws. -/
structure AuthEnv where
  verifyIdToken : String → Option String

/-- `handler` (netlify/functions/delete-user.ts), as a function of the
request, the verification capability and the backend state.  Returns the
HTTP response, the new state, and the trace of deletion actions in the
order the code issues them.  Exceptions (failed token verification,
failed auth-provider deletion) reach the catch-all and yield 500. -/
def handler (env : AuthEnv) (req : DeleteUserRequest) (db : UserDB) :
    HttpResponse × UserDB × List Action :=
  if req.httpMethod = "OPTIONS" then
    (⟨200, ""⟩, db, [])
  else if req.httpMethod ≠ "POST" then
    (⟨405, "Method not allowed"⟩, db, [])
  else
    match req.authorization with
    | none => (⟨401, "Unauthorized - No token provided"⟩, db, [])
    | some authHeader =>
      if ¬ jsStartsWith authHeader "Bearer " then
        (⟨401, "Unauthorized - No token provided"⟩, db, [])
      else
        let token := jsSubstringFrom authHeader 7
        match env.verifyIdToken token with
        | none => (⟨500, "verifyIdToken threw"⟩, db, [])
        | some requestingUserId =>
          let role := (getDocOpt requestingUserId db.user_roles).map RoleDoc.role
          if role ≠ some Role.admin ∧ role ≠ some Role.super_admin then
            (⟨403, "Only admins can delete users"⟩, db, [])
          else if ¬ jsTruthy req.bodyUserId then
            (⟨400, "User ID is required"⟩, db, [])
          else
            let userId := req.bodyUserId.getD ""
            if userId = requestingUserId then
              (⟨400, "Cannot delete your own account"⟩, db, [])
            else
              let db1 := { db with
                user_roles := deleteDocKey userId db.user_roles,
                admin_requests := deleteDocKey userId db.admin_requests,
                users := deleteDocKey userId db.users }
              let fsTrace := [Action.fsDelete "user_roles" userId,
                              Action.fsDelete "admin_requests" userId,
                              Action.fsDelete "users" userId]
              if db1.authUsers.contains userId then
                (⟨200, "User completely removed from system"⟩,
                 { db1 with authUsers := db1.authUsers.filter (fun u => u != userId) },
                 fsTrace ++ [Action.authDelete userId])
              else
                (⟨500, "auth deleteUser threw"⟩, db1,
                 fsTrace ++ [Action.authDelete userId])

/-! ## `src/pages/admin/Admins.tsx` (client side) -/

/-- The HTTP request `handleRejectRequest` (src/pages/admin/Admins.tsx)
issues when an admin rejects a pending request: a POST with the target
uid in the body and only a Content-Type header — no Authorization
header is attached. -/
def rejectRequestHttp (userId : String) : DeleteUserRequest :=
  { httpMethod := "POST", authorization := none, bodyUserId := some userId }

/-! ## `src/integrations/firebase/admin.ts` -/

/-- `deleteUserAccount` (src/integrations/firebase/admin.ts): the
client-side deletion.  Checks the admin guard and the self-target guard,
then commits the three document deletions as one write batch
(`commitOk` models whether `batch.commit()` succeeds; a failed commit
throws, is caught, and applies nothing).  The auth-provider identity is
never touched. -/
def deleteUserAccount (userId requestingUserId : String) (commitOk : Bool)
    (db : UserDB) : Bool × UserDB :=
  if ¬ isUserAdmin requestingUserId db then (false, db)
  else if userId = requestingUserId then (false, db)
  else if commitOk then
    (true, { db with
      user_roles := deleteDocKey userId db.user_roles,
      admin_requests := deleteDocKey userId db.admin_requests,
      users := deleteDocKey userId db.users })
  else (false, db)

/-! ## `src/integrations/firebase/firestore/church.ts` -/

/-- An `events` document. -/
structure Event where
  id : String
  title : String
  eventDate : Nat
  isActive : Bool
deriving DecidableEq, Repr

/-- A `gallery_albums` document. -/
structure GalleryAlbumDoc where
  id : String
  title : String
  displayOrder : Nat
  isActive : Bool
deriving DecidableEq, Repr

/-- A `gallery_images` document; `albumId` is the foreign key to its
parent album. -/
structure GalleryImageDoc where
  id : String
  albumId : String
  imageUrl : String
  displayOrder : Nat
deriving DecidableEq, Repr

/-- The caller-supplied fields of a contact submission
(`Omit<ContactSubmission, 'id' | 'isRead' | 'createdAt'>`): the caller
cannot supply `isRead` or `createdAt`. -/
structure ContactInput where
  name : String
  email : String
  message : String
deriving DecidableEq, Repr

/-- A stored `contact_submissions` document. -/
structure ContactSubmissionDoc where
  name : String
  email : String
  message : String
  isRead : Bool
  createdAt : Nat
deriving DecidableEq, Repr

/-- The content-store state: the collections `church.ts` touches, the
id counter backing `addDoc`, and the server clock backing
`serverTimestamp()`. -/
structure ChurchDB where
  events : List Event
  gallery_albums : List GalleryAlbumDoc
  gallery_images : List GalleryImageDoc
  contact_submissions : Collection ContactSubmissionDoc
  nextId : Nat
  serverTime : Nat
deriving DecidableEq, Repr

/-- The ascending comparator of `getActiveEvents`
(`dateA.getTime() - dateB.getTime()`). -/
def eventDateLe (a b : Event) : Bool := a.eventDate ≤ b.eventDate

/-- The descending comparator of `getAllEvents`
(`dateB.getTime() - dateA.getTime()`). -/
def eventDateGe (a b : Event) : Bool := b.eventDate ≤ a.eventDate

/-- `getActiveEvents` (church.ts): fetch the documents matching
`where('isActive', '==', true)` and sort them by `eventDate` ascending
in JavaScript. -/
def getActiveEvents (db : ChurchDB) : List Event :=
  (db.events.filter (fun e => e.isActive)).mergeSort eventDateLe

/-- `getAllEvents` (church.ts): fetch every document of the `events`
collection and sort by `eventDate` descending in JavaScript. -/
def getAllEvents (db : ChurchDB) : List Event :=
  db.events.mergeSort eventDateGe

/-- An observable deletion performed by `deleteGalleryAlbum`. -/
inductive ChurchAction
  | deleteImageDoc (imageId : String)
  | deleteAlbumDoc (albumId : String)
deriving DecidableEq, Repr

/-- `deleteGalleryAlbum` (church.ts): query the `gallery_images`
documents whose `albumId` equals the target, delete them all (an
unordered batch of `deleteDoc` calls), then delete the album document.
The trace lists the deletions in the order the code issues them. -/
def deleteGalleryAlbum (albumId : String) (db : ChurchDB) :
    ChurchDB × List ChurchAction :=
  let snapshot := db.gallery_images.filter (fun img => img.albumId == albumId)
  let db1 := { db with
    gallery_images := db.gallery_images.filter (fun img => img.albumId != albumId) }
  let db2 := { db1 with
    gallery_albums := db1.gallery_albums.filter (fun a => a.id != albumId) }
  (db2,
   snapshot.map (fun img => ChurchAction.deleteImageDoc img.id)
     ++ [ChurchAction.deleteAlbumDoc albumId])

/-- `createContactSubmission` (church.ts): `addDoc` with the caller's
fields plus `isRead: false` and `createdAt: serverTimestamp()`.  Returns
the generated document id. -/
def createContactSubmission (sub : ContactInput) (db : ChurchDB) :
    String × ChurchDB :=
  let id := "doc" ++ toString db.nextId
  let stored : ContactSubmissionDoc :=
    ⟨sub.name, sub.email, sub.message, false, db.serverTime⟩
  (id, { db with
    contact_submissions := (id, stored) :: db.contact_submissions,
    nextId := db.nextId + 1 })

/-! ## Helper lemmas about collections -/

/-- Reading back a freshly written document. -/
theorem getDocOpt_setDoc_self (k : String) (v : α) (c : Collection α) :
    getDocOpt k (setDoc k v c) = some v := by
  simp [getDocOpt, setDoc, List.lookup]

/-- A key filtered out of a collection cannot be looked up. -/
theorem lookup_filter_self (k : String) (c : Collection α) :
    (c.filter (fun p => p.1 != k)).lookup k = none := by
  rw [List.lookup_eq_none_iff]
  intro p hp
  have hne := (List.mem_filter.mp hp).2
  simp only [bne_iff_ne, ne_eq] at hne ⊢
  exact fun e => hne e.symm

/-- Filtering out one key leaves every other lookup unchanged. -/
theorem lookup_filter_other {k j : String} (h : j ≠ k) (c : Collection α) :
    (c.filter (fun p => p.1 != k)).lookup j = c.lookup j := by
  induction c with
  | nil => rfl
  | cons hd tl ih =>
    obtain ⟨a, b⟩ := hd
    by_cases hk : a = k
    · have hj : (j == a) = false := by simp [hk, h]
      have hjk : (j == k) = false := by simp [h]
      simp [List.filter_cons, hk, List.lookup_cons, hj, hjk, ih]
    · simp [List.filter_cons, bne_iff_ne, hk, List.lookup_cons, ih]

/-- Deleting a document removes it. -/
theorem getDocOpt_deleteDocKey_self (k : String) (c : Collection α) :
    getDocOpt k (deleteDocKey k c) = none := by
  simpa [getDocOpt, deleteDocKey] using lookup_filter_self k c

/-- Deleting a document leaves the others unchanged. -/
theorem getDocOpt_deleteDocKey_other {k j : String} (h : j ≠ k) (c : Collection α) :
    getDocOpt j (deleteDocKey k c) = getDocOpt j c := by
  simpa [getDocOpt, deleteDocKey] using lookup_filter_other h c

/-- After overwriting key `k`, every other lookup is unchanged. -/
theorem getDocOpt_setDoc_other {k j : String} (h : j ≠ k) (v : α) (c : Collection α) :
    getDocOpt j (setDoc k v c) = getDocOpt j c := by
  simp [getDocOpt, setDoc, List.lookup, show (j == k) = false by simpa using h,
    lookup_filter_other h]

/-- The ascending event comparator is transitive. -/
theorem eventDateLe_trans (a b c : Event) (hab : eventDateLe a b = true)
    (hbc : eventDateLe b c = true) : eventDateLe a c = true := by
  simp only [eventDateLe, decide_eq_true_eq] at *
  omega

/-- The ascending event comparator is total. -/
theorem eventDateLe_total (a b : Event) :
    (eventDateLe a b || eventDateLe b a) = true := by
  simp only [eventDateLe, Bool.or_eq_true, decide_eq_true_eq]
  omega

/-- The descending event comparator is transitive. -/
theorem eventDateGe_trans (a b c : Event) (hab : eventDateGe a b = true)
    (hbc : eventDateGe b c = true) : eventDateGe a c = true := by
  simp only [eventDateGe, decide_eq_true_eq] at *
  omega

/-- The descending event comparator is total. -/
theorem eventDateGe_total (a b : Event) :
    (eventDateGe a b || eventDateGe b a) = true := by
  simp only [eventDateGe, Bool.or_eq_true, decide_eq_true_eq]
  omega

/-! ## Claim theorems -/

/-- Claim C10 (confirmed): every contact submission created through
`createContactSubmission` is stored with `isRead = false` and the
server-assigned creation timestamp, regardless of caller input — the
input type carries no `isRead` field, and the stored document always
gets `isRead := false` and `createdAt := serverTime`. -/
theorem c10_contact_submission_created_unread (db : ChurchDB) (sub : ContactInput) :
    getDocOpt (createContactSubmission sub db).1
        ((createContactSubmission sub db).2.contact_submissions) =
      some ⟨sub.name, sub.email, sub.message, false, db.serverTime⟩ := by
  simp [createContactSubmission, getDocOpt, List.lookup]

/-- Claim C7 (confirmed): `deleteGalleryAlbum` first deletes every
`gallery_images` document whose `albumId` equals the target (an
unordered batch), then the album document; afterwards no image
references the album and the album document is gone, while unrelated
images and albums survive. -/
theorem c7_delete_gallery_album_cascades (db : ChurchDB) (albumId : String) :
    (∀ img ∈ (deleteGalleryAlbum albumId db).1.gallery_images, img.albumId ≠ albumId) ∧
    (∀ a ∈ (deleteGalleryAlbum albumId db).1.gallery_albums, a.id ≠ albumId) ∧
    (∀ img ∈ db.gallery_images, img.albumId ≠ albumId →
      img ∈ (deleteGalleryAlbum albumId db).1.gallery_images) ∧
    (∀ a ∈ db.gallery_albums, a.id ≠ albumId →
      a ∈ (deleteGalleryAlbum albumId db).1.gallery_albums) ∧
    (deleteGalleryAlbum albumId db).2 =
      (db.gallery_images.filter (fun img => img.albumId == albumId)).map
          (fun img => ChurchAction.deleteImageDoc img.id)
        ++ [ChurchAction.deleteAlbumDoc albumId] := by
  refine ⟨?_, ?_, ?_, ?_, rfl⟩ <;>
    simp [deleteGalleryAlbum, List.mem_filter, bne_iff_ne] <;>
    intro x hx hne <;> exact ⟨hx, hne⟩

/-- Claim C7 witness: the per-element facts applied to a concrete store. -/
theorem c7_delete_gallery_album_cascades_witness :
    (⟨"i1", "alb", "u", 0⟩ : GalleryImageDoc) ∈
      (deleteGalleryAlbum "gone"
        ⟨[], [⟨"alb", "t", 0, true⟩], [⟨"i1", "alb", "u", 0⟩], [], 0, 0⟩).1.gallery_images :=
  (c7_delete_gallery_album_cascades
      ⟨[], [⟨"alb", "t", 0, true⟩], [⟨"i1", "alb", "u", 0⟩], [], 0, 0⟩ "gone").2.2.1
    ⟨"i1", "alb", "u", 0⟩ (by decide) (by decide)

/-- Claim C6 (confirmed): `getActiveEvents` returns exactly the events
with `isActive = true`, sorted ascending by `eventDate`; `getAllEvents`
returns every event, sorted descending by `eventDate`. -/
theorem c6_event_listing_sorted (db : ChurchDB) :
    (getActiveEvents db).Perm (db.events.filter (fun e => e.isActive)) ∧
    List.Pairwise (fun a b => a.eventDate ≤ b.eventDate) (getActiveEvents db) ∧
    (∀ e, e ∈ getActiveEvents db ↔ (e ∈ db.events ∧ e.isActive = true)) ∧
    (getAllEvents db).Perm db.events ∧
    List.Pairwise (fun a b => b.eventDate ≤ a.eventDate) (getAllEvents db) := by
  unfold getActiveEvents getAllEvents
  refine ⟨List.mergeSort_perm _ _, ?_, ?_, List.mergeSort_perm _ _, ?_⟩
  · exact (List.sorted_mergeSort eventDateLe_trans eventDateLe_total _).imp
      (fun h => by simpa [eventDateLe] using h)
  · intro e
    rw [(List.mergeSort_perm _ _).mem_iff, List.mem_filter]
  · exact (List.sorted_mergeSort eventDateGe_trans eventDateGe_total _).imp
      (fun h => by simpa [eventDateGe] using h)

/-- Claim C6 witness: the membership characterization applied to a
concrete store. -/
theorem c6_event_listing_sorted_witness :
    (⟨"e1", "t", 5, true⟩ : Event) ∈
      getActiveEvents ⟨[⟨"e1", "t", 5, true⟩, ⟨"e2", "s", 3, false⟩], [], [], [], 0, 0⟩ :=
  ((c6_event_listing_sorted
      ⟨[⟨"e1", "t", 5, true⟩, ⟨"e2", "s", 3, false⟩], [], [], [], 0, 0⟩).2.2.1
    ⟨"e1", "t", 5, true⟩).mpr ⟨by decide, rfl⟩

/-- Claim C1 (code bug): the admin page's `handleRejectRequest` sends the
deletion request without an Authorization header, so the endpoint
answers 401 before reaching any deletion — the state is unchanged and
no deletion action is issued, for every backend state and verifier. -/
theorem c1_reject_request_always_401 (env : AuthEnv) (db : UserDB) (userId : String) :
    handler env (rejectRequestHttp userId) db =
      (⟨401, "Unauthorized - No token provided"⟩, db, []) := by
  simp [handler, rejectRequestHttp]

/-- Claim C3 (confirmed): when the verified caller is an admin or super
admin and the target `userId` equals the caller's own identity, the
endpoint returns 400, the state is unchanged in every store, and no
deletion action is issued. -/
theorem c3_self_target_returns_400 (env : AuthEnv) (db : UserDB)
    (authHeader caller : String) (rd : RoleDoc)
    (hb : jsStartsWith authHeader "Bearer " = true)
    (hv : env.verifyIdToken (jsSubstringFrom authHeader 7) = some caller)
    (hr : getDocOpt caller db.user_roles = some rd)
    (hrole : rd.role = Role.admin ∨ rd.role = Role.super_admin)
    (hne : caller ≠ "") :
    handler env ⟨"POST", some authHeader, some caller⟩ db =
      (⟨400, "Cannot delete your own account"⟩, db, []) := by
  rcases hrole with h | h <;> simp [handler, hb, hv, hr, h, jsTruthy, hne]

/-- Claim C3 witness: a concrete admin calling the endpoint against
their own uid. -/
theorem c3_self_target_returns_400_witness :
    handler ⟨fun t => if t == "tok" then some "alice" else none⟩
        ⟨"POST", some "Bearer tok", some "alice"⟩
        ⟨[], [("alice", ⟨Role.admin, "seed"⟩)], [], ["alice"]⟩ =
      (⟨400, "Cannot delete your own account"⟩,
       ⟨[], [("alice", ⟨Role.admin, "seed"⟩)], [], ["alice"]⟩, []) :=
  c3_self_target_returns_400 ⟨fun t => if t == "tok" then some "alice" else none⟩
    ⟨[], [("alice", ⟨Role.admin, "seed"⟩)], [], ["alice"]⟩
    "Bearer tok" "alice" ⟨Role.admin, "seed"⟩
    (by decide) (by decide) (by decide) (Or.inl rfl) (by decide)

/-- Claim C2 counterexample: a POST carrying a well-formed Bearer token
that fails provider verification is answered 500 by the catch-all
branch, not 401 as the claim states. -/
theorem c2_invalid_token_gets_500_not_401 :
    (handler ⟨fun _ => none⟩ ⟨"POST", some "Bearer badtoken", some "victim"⟩
        ⟨[], [], [], []⟩).1.statusCode = 500 ∧
    ¬ (handler ⟨fun _ => none⟩ ⟨"POST", some "Bearer badtoken", some "victim"⟩
        ⟨[], [], [], []⟩).1.statusCode = 401 := by
  decide

/-- Claim C2 amended (corrected): validation is fail-fast in the order
OPTIONS short-circuits with 200, non-POST returns 405, missing or
malformed Bearer token returns 401, a token failing provider
verification returns 500 via the catch branch (not 401), a verified
caller whose freshly-looked-up role is neither admin nor super_admin
returns 403, a missing userId returns 400, and a userId equal to the
caller returns 400 — each branch leaves every store unchanged and
issues no deletion action. -/
theorem c2_validation_sequence (env : AuthEnv) (req : DeleteUserRequest) (db : UserDB) :
    (req.httpMethod = "OPTIONS" → handler env req db = (⟨200, ""⟩, db, [])) ∧
    (req.httpMethod ≠ "OPTIONS" → req.httpMethod ≠ "POST" →
      handler env req db = (⟨405, "Method not allowed"⟩, db, [])) ∧
    (req.httpMethod = "POST" → req.authorization = none →
      handler env req db = (⟨401, "Unauthorized - No token provided"⟩, db, [])) ∧
    (∀ hAuth, req.httpMethod = "POST" → req.authorization = some hAuth →
      jsStartsWith hAuth "Bearer " = false →
      handler env req db = (⟨401, "Unauthorized - No token provided"⟩, db, [])) ∧
    (∀ hAuth, req.httpMethod = "POST" → req.authorization = some hAuth →
      jsStartsWith hAuth "Bearer " = true →
      env.verifyIdToken (jsSubstringFrom hAuth 7) = none →
      handler env req db = (⟨500, "verifyIdToken threw"⟩, db, [])) ∧
    (∀ hAuth caller, req.httpMethod = "POST" → req.authorization = some hAuth →
      jsStartsWith hAuth "Bearer " = true →
      env.verifyIdToken (jsSubstringFrom hAuth 7) = some caller →
      (getDocOpt caller db.user_roles).map RoleDoc.role ≠ some Role.admin →
      (getDocOpt caller db.user_roles).map RoleDoc.role ≠ some Role.super_admin →
      handler env req db = (⟨403, "Only admins can delete users"⟩, db, [])) ∧
    (∀ hAuth caller rd, req.httpMethod = "POST" → req.authorization = some hAuth →
      jsStartsWith hAuth "Bearer " = true →
      env.verifyIdToken (jsSubstringFrom hAuth 7) = some caller →
      getDocOpt caller db.user_roles = some rd →
      (rd.role = Role.admin ∨ rd.role = Role.super_admin) →
      jsTruthy req.bodyUserId = false →
      handler env req db = (⟨400, "User ID is required"⟩, db, [])) ∧
    (∀ hAuth caller rd, req.httpMethod = "POST" → req.authorization = some hAuth →
      jsStartsWith hAuth "Bearer " = true →
      env.verifyIdToken (jsSubstringFrom hAuth 7) = some caller →
      getDocOpt caller db.user_roles = some rd →
      (rd.role = Role.admin ∨ rd.role = Role.super_admin) →
      req.bodyUserId = some caller → caller ≠ "" →
      handler env req db = (⟨400, "Cannot delete your own account"⟩, db, [])) := by
  obtain ⟨m, authz, bodyU⟩ := req
  refine ⟨?_, ?_, ?_, ?_, ?_, ?_, ?_, ?_⟩
  · rintro rfl; simp [handler]
  · intro h1 h2; simp only at h1 h2; simp [handler, h1, h2]
  · rintro rfl rfl; simp [handler]
  · rintro hAuth rfl rfl hsw; simp [handler, hsw]
  · rintro hAuth rfl rfl hsw hv; simp [handler, hsw, hv]
  · rintro hAuth caller rfl rfl hsw hv h1 h2; simp [handler, hsw, hv, h1, h2]
  · rintro hAuth caller rd rfl rfl hsw hv hr hrole ht
    rcases hrole with h | h <;> simp [handler, hsw, hv, hr, h, ht]
  · rintro hAuth caller rd rfl rfl hsw hv hr hrole rfl hne
    rcases hrole with h | h <;> simp [handler, hsw, hv, hr, h, jsTruthy, hne]

/-- Claim C2 witness: the OPTIONS short-circuit of the amended sequence
applied to a concrete request. -/
theorem c2_validation_sequence_witness :
    handler ⟨fun _ => none⟩ ⟨"OPTIONS", none, none⟩ ⟨[], [], [], []⟩ =
      (⟨200, ""⟩, ⟨[], [], [], []⟩, []) :=
  (c2_validation_sequence ⟨fun _ => none⟩ ⟨"OPTIONS", none, none⟩
    ⟨[], [], [], []⟩).1 rfl

/-- Claim C8 (confirmed): once a request passes validation, the handler
issues the three Firestore deletions (one unordered batch over
`user_roles`, `admin_requests`, `users`) strictly before the
auth-provider deletion — the action trace ends with the auth delete —
and if the auth-provider deletion fails the response is 500 while the
three document deletions remain applied and the auth store is left as
it was: no rollback. -/
theorem c8_auth_delete_after_firestore (env : AuthEnv) (db : UserDB)
    (authHeader caller target : String) (rd : RoleDoc)
    (hb : jsStartsWith authHeader "Bearer " = true)
    (hv : env.verifyIdToken (jsSubstringFrom authHeader 7) = some caller)
    (hr : getDocOpt caller db.user_roles = some rd)
    (hrole : rd.role = Role.admin ∨ rd.role = Role.super_admin)
    (hne : target ≠ "") (hself : target ≠ caller) :
    (handler env ⟨"POST", some authHeader, some target⟩ db).2.2 =
      [Action.fsDelete "user_roles" target, Action.fsDelete "admin_requests" target,
       Action.fsDelete "users" target, Action.authDelete target] ∧
    getDocOpt target
      (handler env ⟨"POST", some authHeader, some target⟩ db).2.1.user_roles = none ∧
    getDocOpt target
      (handler env ⟨"POST", some authHeader, some target⟩ db).2.1.admin_requests = none ∧
    getDocOpt target
      (handler env ⟨"POST", some authHeader, some target⟩ db).2.1.users = none ∧
    (db.authUsers.contains target = false →
      (handler env ⟨"POST", some authHeader, some target⟩ db).1.statusCode = 500 ∧
      (handler env ⟨"POST", some authHeader, some target⟩ db).2.1.authUsers =
        db.authUsers) ∧
    (db.authUsers.contains target = true →
      (handler env ⟨"POST", some authHeader, some target⟩ db).1.statusCode = 200 ∧
      (handler env ⟨"POST", some authHeader, some target⟩ db).2.1.authUsers =
        db.authUsers.filter (fun u => u != target)) := by
  have hts : jsTruthy (some target) = true := by simp [jsTruthy, hne]
  rcases hrole with h | h <;> by_cases hc : target ∈ db.authUsers <;>
    simp [handler, hb, hv, hr, h, hts, hself, hc, getDocOpt_deleteDocKey_self]

/-- Claim C8 witness: a concrete super admin deleting a concrete user;
the trace places the auth-provider delete after the three document
deletes. -/
theorem c8_auth_delete_after_firestore_witness :
    (handler ⟨fun t => if t == "tok2" then some "alice" else none⟩
        ⟨"POST", some "Bearer tok2", some "bob"⟩
        ⟨[("bob", ⟨"bob@x", "Bob", ""⟩)], [("alice", ⟨Role.super_admin, "system"⟩)],
         [("bob", ⟨"bob@x", ReqStatus.pending⟩)], ["alice", "bob"]⟩).2.2 =
      [Action.fsDelete "user_roles" "bob", Action.fsDelete "admin_requests" "bob",
       Action.fsDelete "users" "bob", Action.authDelete "bob"] :=
  (c8_auth_delete_after_firestore
    ⟨fun t => if t == "tok2" then some "alice" else none⟩
    ⟨[("bob", ⟨"bob@x", "Bob", ""⟩)], [("alice", ⟨Role.super_admin, "system"⟩)],
     [("bob", ⟨"bob@x", ReqStatus.pending⟩)], ["alice", "bob"]⟩
    "Bearer tok2" "alice" "bob" ⟨Role.super_admin, "system"⟩
    (by decide) (by decide) (by decide) (Or.inr rfl) (by decide) (by decide)).1

/-- Claim C9 (confirmed): the client-side `deleteUserAccount` returns
`success = false` and performs no writes when the requester is not an
admin or targets themselves; when it proceeds, the three document
deletions commit as one all-or-nothing batch (a failed commit leaves
every store untouched, a successful one removes exactly the three
target documents), and the auth-provider user set is never modified. -/
theorem c9_client_delete_user_account (db : UserDB)
    (userId requestingUserId : String) (commitOk : Bool) :
    (deleteUserAccount userId requestingUserId commitOk db).2.authUsers = db.authUsers ∧
    (isUserAdmin requestingUserId db = false →
      deleteUserAccount userId requestingUserId commitOk db = (false, db)) ∧
    (userId = requestingUserId →
      deleteUserAccount userId requestingUserId commitOk db = (false, db)) ∧
    (commitOk = false →
      (deleteUserAccount userId requestingUserId commitOk db).2 = db) ∧
    (isUserAdmin requestingUserId db = true → userId ≠ requestingUserId →
      commitOk = true →
      (deleteUserAccount userId requestingUserId commitOk db).1 = true ∧
      getDocOpt userId
        (deleteUserAccount userId requestingUserId commitOk db).2.user_roles = none ∧
      getDocOpt userId
        (deleteUserAccount userId requestingUserId commitOk db).2.admin_requests = none ∧
      getDocOpt userId
        (deleteUserAccount userId requestingUserId commitOk db).2.users = none ∧
      (∀ k, k ≠ userId →
        getDocOpt k (deleteUserAccount userId requestingUserId commitOk db).2.user_roles =
          getDocOpt k db.user_roles ∧
        getDocOpt k (deleteUserAccount userId requestingUserId commitOk db).2.admin_requests =
          getDocOpt k db.admin_requests ∧
        getDocOpt k (deleteUserAccount userId requestingUserId commitOk db).2.users =
          getDocOpt k db.users)) := by
  refine ⟨?_, ?_, ?_, ?_, ?_⟩
  · by_cases h1 : isUserAdmin requestingUserId db <;>
      by_cases h2 : userId = requestingUserId <;>
      by_cases h3 : commitOk <;> simp [deleteUserAccount, h1, h2, h3]
  · intro h; simp [deleteUserAccount, h]
  · intro h; simp [deleteUserAccount, h]
  · rintro rfl
    by_cases h1 : isUserAdmin requestingUserId db <;>
      by_cases h2 : userId = requestingUserId <;> simp [deleteUserAccount, h1, h2]
  · intro h1 h2 h3
    subst h3
    refine ⟨?_, ?_, ?_, ?_, ?_⟩ <;>
      simp [deleteUserAccount, h1, h2, getDocOpt_deleteDocKey_self]
    intro k hk
    exact ⟨getDocOpt_deleteDocKey_other hk _, getDocOpt_deleteDocKey_other hk _,
      getDocOpt_deleteDocKey_other hk _⟩

/-- Claim C9 witness: a concrete admin deleting a concrete other user
succeeds client-side. -/
theorem c9_client_delete_user_account_witness :
    (deleteUserAccount "bob" "alice" true
        ⟨[("bob", ⟨"bob@x", "Bob", ""⟩)], [("alice", ⟨Role.admin, "seed"⟩)],
         [("bob", ⟨"bob@x", ReqStatus.pending⟩)], ["alice", "bob"]⟩).1 = true :=
  ((c9_client_delete_user_account
      ⟨[("bob", ⟨"bob@x", "Bob", ""⟩)], [("alice", ⟨Role.admin, "seed"⟩)],
       [("bob", ⟨"bob@x", ReqStatus.pending⟩)], ["alice", "bob"]⟩
      "bob" "alice" true).2.2.2.2 (by decide) (by decide) rfl).1

/-- Claim C4 (confirmed, against the spec-modelled `users.ts`): every
email/password sign-up of a fresh identity creates its Profile; when at
least one admin/super_admin role assignment already exists (so no
auto-promotion), an AdminRequest with status pending is created and no
RoleAssignment is written for the identity; when auto-promotion occurs
(no admin existed), no AdminRequest is created. -/
theorem c4_email_signup_request_or_promotion (db : UserDB)
    (uid email displayName : String)
    (hfresh : getDocOpt uid db.user_roles = none) :
    getDocOpt uid (signUpWithEmail uid email displayName db).users =
      some ⟨email, displayName, ""⟩ ∧
    (hasAnyAdmin db = true →
      getDocOpt uid (signUpWithEmail uid email displayName db).user_roles = none ∧
      getDocOpt uid (signUpWithEmail uid email displayName db).admin_requests =
        some ⟨email, ReqStatus.pending⟩) ∧
    (hasAnyAdmin db = false →
      getDocOpt uid (signUpWithEmail uid email displayName db).user_roles =
        some ⟨Role.super_admin, "system"⟩ ∧
      (signUpWithEmail uid email displayName db).admin_requests =
        db.admin_requests) := by
  by_cases hadm : hasAnyAdmin db = true
  · have hany : db.user_roles.any
        (fun p => p.2.role == Role.admin || p.2.role == Role.super_admin) = true := by
      simpa [hasAnyAdmin] using hadm
    have hstep : signUpWithEmail uid email displayName db =
        { db with
          authUsers := uid :: db.authUsers,
          users := setDoc uid ⟨email, displayName, ""⟩ db.users,
          admin_requests := setDoc uid ⟨email, ReqStatus.pending⟩ db.admin_requests } := by
      simp [signUpWithEmail, createUserProfile, isUserAdmin, getUserRole,
        createAdminRequest, hasAnyAdmin, hany, hfresh]
    rw [hstep]
    refine ⟨getDocOpt_setDoc_self _ _ _, fun _ => ⟨hfresh, getDocOpt_setDoc_self _ _ _⟩,
      fun hfalse => absurd hadm (by simp [hfalse])⟩
  · have hadm2 : hasAnyAdmin db = false := by simpa using hadm
    have hany : db.user_roles.any
        (fun p => p.2.role == Role.admin || p.2.role == Role.super_admin) = false := by
      simpa [hasAnyAdmin] using hadm2
    have hstep : signUpWithEmail uid email displayName db =
        { db with
          authUsers := uid :: db.authUsers,
          users := setDoc uid ⟨email, displayName, ""⟩ db.users,
          user_roles := setDoc uid ⟨Role.super_admin, "system"⟩ db.user_roles } := by
      simp [signUpWithEmail, createUserProfile, isUserAdmin, getUserRole,
        createAdminRequest, hasAnyAdmin, hany, getDocOpt_setDoc_self]
    rw [hstep]
    exact ⟨getDocOpt_setDoc_self _ _ _,
      fun htrue => absurd htrue (by simp [hadm2]),
      fun _ => ⟨getDocOpt_setDoc_self _ _ _, rfl⟩⟩

/-- Claim C4 witness: a second sign-up while a super admin exists ends
pending with no role assignment. -/
theorem c4_email_signup_request_or_promotion_witness :
    getDocOpt "bob"
        (signUpWithEmail "bob" "bob@x" "Bob"
          ⟨[("alice", ⟨"a@x", "Alice", ""⟩)], [("alice", ⟨Role.super_admin, "system"⟩)],
           [], ["alice"]⟩).admin_requests = some ⟨"bob@x", ReqStatus.pending⟩ :=
  ((c4_email_signup_request_or_promotion
      ⟨[("alice", ⟨"a@x", "Alice", ""⟩)], [("alice", ⟨Role.super_admin, "system"⟩)],
       [], ["alice"]⟩ "bob" "bob@x" "Bob" (by decide)).2.1 (by decide)).2

/-- Claim C5 counterexample: a state in which the identity `u` already
has a Profile (so the claim says nothing is created) but no role
record: returning from the Google redirect, the code nevertheless
creates an AdminRequest for `u` and overwrites `u`'s Profile. -/
theorem c5_profile_gate_counterexample :
    getDocOpt "u"
        (handleGoogleRedirect "u" "u@x" "New" ""
          ⟨[("u", ⟨"u@x", "Old", ""⟩)], [("boss", ⟨Role.super_admin, "system"⟩)],
           [], ["u", "boss"]⟩).admin_requests = some ⟨"u@x", ReqStatus.pending⟩ ∧
    getDocOpt "u"
        (⟨[("u", ⟨"u@x", "Old", ""⟩)], [("boss", ⟨Role.super_admin, "system"⟩)],
          [], ["u", "boss"]⟩ : UserDB).users ≠ none ∧
    getDocOpt "u"
        (handleGoogleRedirect "u" "u@x" "New" ""
          ⟨[("u", ⟨"u@x", "Old", ""⟩)], [("boss", ⟨Role.super_admin, "system"⟩)],
           [], ["u", "boss"]⟩).users = some ⟨"u@x", "New", ""⟩ := by
  decide

/-- Claim C5 amended (corrected): the redirect handler gates creation on
the absence of a role record, not of a Profile: if the returning
identity has a role record, nothing is created; if it has none, a
Profile is written (overwriting any existing one) and the
auto-promotion-or-request rule is applied, with an AdminRequest created
only when none already exists for that identity. -/
theorem c5_google_redirect_role_gated (db : UserDB)
    (uid email displayName photoURL : String) :
    (∀ r, getUserRole uid db = some r →
      handleGoogleRedirect uid email displayName photoURL db = db) ∧
    (getUserRole uid db = none →
      getDocOpt uid (handleGoogleRedirect uid email displayName photoURL db).users =
        some ⟨email, displayName, photoURL⟩ ∧
      (hasAnyAdmin db = false →
        getDocOpt uid
          (handleGoogleRedirect uid email displayName photoURL db).user_roles =
          some ⟨Role.super_admin, "system"⟩ ∧
        (handleGoogleRedirect uid email displayName photoURL db).admin_requests =
          db.admin_requests) ∧
      (hasAnyAdmin db = true →
        getDocOpt uid
          (handleGoogleRedirect uid email displayName photoURL db).user_roles = none ∧
        (getDocOpt uid db.admin_requests = none →
          getDocOpt uid
            (handleGoogleRedirect uid email displayName photoURL db).admin_requests =
            some ⟨email, ReqStatus.pending⟩) ∧
        (∀ r, getDocOpt uid db.admin_requests = some r →
          (handleGoogleRedirect uid email displayName photoURL db).admin_requests =
            db.admin_requests))) := by
  constructor
  · intro r hrole
    simp [handleGoogleRedirect, hrole]
  · intro hfresh
    by_cases hadm : hasAnyAdmin db = true
    · have hany : db.user_roles.any
          (fun p => p.2.role == Role.admin || p.2.role == Role.super_admin) = true := by
        simpa [hasAnyAdmin] using hadm
      have hrole0 : getDocOpt uid db.user_roles = none := by
        simpa [getUserRole] using hfresh
      by_cases hreq : getDocOpt uid db.admin_requests = none
      · have hstep : handleGoogleRedirect uid email displayName photoURL db =
            { db with
              users := setDoc uid ⟨email, displayName, photoURL⟩ db.users,
              admin_requests :=
                setDoc uid ⟨email, ReqStatus.pending⟩ db.admin_requests } := by
          simp [handleGoogleRedirect, hfresh, createUserProfile, hasAnyAdmin, hany,
            isUserAdmin, getUserRole, hrole0, getAdminRequestStatus, hreq,
            createAdminRequest]
        rw [hstep]
        refine ⟨getDocOpt_setDoc_self _ _ _,
          fun hfalse => absurd hadm (by simp [hfalse]),
          fun _ => ⟨hrole0, fun _ => getDocOpt_setDoc_self _ _ _,
            fun r hr => absurd hr (by simp [hreq])⟩⟩
      · obtain ⟨rq, hrq⟩ := Option.ne_none_iff_exists'.mp hreq
        have hstep : handleGoogleRedirect uid email displayName photoURL db =
            { db with
              users := setDoc uid ⟨email, displayName, photoURL⟩ db.users } := by
          simp [handleGoogleRedirect, hfresh, createUserProfile, hasAnyAdmin, hany,
            isUserAdmin, getUserRole, hrole0, getAdminRequestStatus, hrq]
        rw [hstep]
        refine ⟨getDocOpt_setDoc_self _ _ _,
          fun hfalse => absurd hadm (by simp [hfalse]),
          fun _ => ⟨hrole0, fun hnone => absurd hnone (by simp [hrq]), fun _ _ => rfl⟩⟩
    · have hadm2 : hasAnyAdmin db = false := by simpa using hadm
      have hany : db.user_roles.any
          (fun p => p.2.role == Role.admin || p.2.role == Role.super_admin) = false := by
        simpa [hasAnyAdmin] using hadm2
      have hrole0 : getDocOpt uid db.user_roles = none := by
        simpa [getUserRole] using hfresh
      have hstep : handleGoogleRedirect uid email displayName photoURL db =
          { db with
            users := setDoc uid ⟨email, displayName, photoURL⟩ db.users,
            user_roles := setDoc uid ⟨Role.super_admin, "system"⟩ db.user_roles } := by
        simp [handleGoogleRedirect, hfresh, createUserProfile, hasAnyAdmin, hany,
          isUserAdmin, getUserRole, hrole0, getDocOpt_setDoc_self]
      rw [hstep]
      exact ⟨getDocOpt_setDoc_self _ _ _,
        fun _ => ⟨getDocOpt_setDoc_self _ _ _, rfl⟩,
        fun htrue => absurd htrue (by simp [hadm2])⟩

/-- Claim C5 witness: the duplicate-request guard on a concrete state in
which a pending request already exists. -/
theorem c5_google_redirect_role_gated_witness :
    (handleGoogleRedirect "u" "u@x" "U" ""
        ⟨[("u", ⟨"u@x", "U", ""⟩)], [("boss", ⟨Role.super_admin, "system"⟩)],
         [("u", ⟨"u@x", ReqStatus.pending⟩)], ["u", "boss"]⟩).admin_requests =
      [("u", ⟨"u@x", ReqStatus.pending⟩)] :=
  (((c5_google_redirect_role_gated
      ⟨[("u", ⟨"u@x", "U", ""⟩)], [("boss", ⟨Role.super_admin, "system"⟩)],
       [("u", ⟨"u@x", ReqStatus.pending⟩)], ["u", "boss"]⟩
      "u" "u@x" "U" "").2 (by decide)).2.2 (by decide)).2.2
    ⟨"u@x", ReqStatus.pending⟩ (by decide)

end Shiloh
